import Mathlib

/-!
Verification development for the tensor-implementation core of the repository
(`oneflow/core/framework/tensor_impl.cpp`).  The C++ classes are shallowly
embedded: `Maybe<T>` becomes an explicit result type, pointer identity is
represented by numeric ids, and mutation of `this` becomes explicit state
passing.  Functions whose definitions live outside the excerpted sources
(placement translation, `ParallelDesc` device lookup, `TensorStorage`
reference counting) are modelled from the specification and carry a doc
comment starting with `Modelled from the spec:`.
-/

namespace OneFlow

/-- Shape: ordered sequence of non-negative dimension extents (`oneflow::Shape`). -/
abbrev Shape := List Nat

/-- Element kind of a tensor (`oneflow::DataType`), a small representative subset. -/
inductive DataType
  | kInvalidDataType
  | kChar
  | kFloat
  | kDouble
  | kInt32
  | kInt64
deriving DecidableEq

/-- Compute target (`oneflow::one::Device`), identified by device tag and device id. -/
structure Device where
  tag : String
  id : Nat
deriving DecidableEq

/-- Per-axis placement descriptor (`cfg::SbpParallel`): Split(axis), Broadcast or
PartialSum (written `psum` here). -/
inductive SbpParallel
  | split (axis : Nat)
  | broadcast
  | psum
deriving DecidableEq

/-- Placement signature (`cfg::ParallelDistribution`): a list of SBP entries. -/
abbrev ParallelDistribution := List SbpParallel

/-- Device group (`oneflow::ParallelDesc`): a device tag plus the participating
(machine_id, device_id) pairs, in rank order. -/
structure ParallelDesc where
  deviceTag : String
  machineDeviceIds : List (Nat × Nat)
deriving DecidableEq

/-- Number of participating ranks of a `ParallelDesc`. -/
def ParallelDesc.parallelNum (pd : ParallelDesc) : Nat :=
  pd.machineDeviceIds.length

/-- Process topology context (`GlobalProcessCtx`), passed explicitly: the current
machine id and device id of this process. -/
structure ProcessCtx where
  machineId : Nat
  deviceId : Nat
deriving DecidableEq

/-- A `std::shared_ptr<const Shape>`: pointer identity (`id`) plus pointed-to value. -/
structure ShapePtr where
  id : Nat
  val : Shape
deriving DecidableEq

/-- Typed failure carried by `Maybe<T>`: a failed `CHECK_OR_RETURN` or
`CHECK_NOTNULL_OR_RETURN`, returned to the caller rather than crashing. -/
inductive RtError
  | checkFailed (msg : String)
  | nullPointer (msg : String)
deriving DecidableEq

/-- Result of a fallible C++ call: a value, a typed `Maybe` error, or undefined
behavior (e.g. dereferencing a null `shared_ptr`), which has no defined result. -/
inductive Outcome (α : Type)
  | ok (value : α)
  | error (e : RtError)
  | undefinedBehavior
deriving DecidableEq

/-! Placement translation (logical to physical shape and back).  The definitions
of `GetPhysicalShape` and `GetLogicalShape` are declared and called in
`tensor_impl.cpp` but defined elsewhere in the repository, so they are modelled
from the spec (section 4.2). -/

/-- Modelled from the spec: the Split(axis) case of `GetPhysicalShape`.  The axis
extent is divided among the participating ranks.  The fixed remainder policy is
even division: the call fails (a `Maybe` error) unless the extent divides evenly,
which is the only policy under which the spec round-trip property can hold for
every rank, because `GetLogicalShape` sees a single rank's physical shape. -/
def applySplitPhys (n : Nat) (axis : Nat) (s : Shape) : Option Shape :=
  (s[axis]?).bind
    (fun d => if 0 < n ∧ d % n = 0 then some (s.set axis (d / n)) else none)

/-- Modelled from the spec: one SBP entry of `GetPhysicalShape`.  Broadcast and
PartialSum leave the axis extents unchanged. -/
def applyPhysEntry (n : Nat) : SbpParallel → Shape → Option Shape
  | .split axis, s => applySplitPhys n axis s
  | .broadcast, s => some s
  | .psum, s => some s

/-- Modelled from the spec: `GetPhysicalShape` applied to a list of SBP entries. -/
def physShapeAux (n : Nat) : List SbpParallel → Shape → Option Shape
  | [], s => some s
  | e :: rest, s => (applyPhysEntry n e s).bind (physShapeAux n rest)

/-- Modelled from the spec: `GetPhysicalShape(logical_shape, sbp, parallel_desc,
parallel_id)`.  Pure and deterministic; fails for an invalid rank or an axis
extent that does not divide evenly on a Split axis. -/
def GetPhysicalShape (logicalShape : Shape) (sbp : ParallelDistribution)
    (pd : ParallelDesc) (parallelId : Int) : Option Shape :=
  if 0 ≤ parallelId ∧ parallelId < (pd.parallelNum : Int) then
    physShapeAux pd.parallelNum sbp logicalShape
  else
    none

/-- Modelled from the spec: one SBP entry of `GetLogicalShape`.  For Split(axis)
the contributions of all participating ranks are summed; under even division the
ranks contribute equally, so the sum is `n` times the current rank's extent.
Broadcast and PartialSum pass the extent through unchanged. -/
def applyLogEntry (n : Nat) : SbpParallel → Shape → Shape
  | .split axis, s => s.set axis (n * s.getD axis 0)
  | .broadcast, s => s
  | .psum, s => s

/-- Modelled from the spec: `GetLogicalShape` applied to a list of SBP entries,
inverting the entries in reverse order. -/
def logShapeAux (n : Nat) : List SbpParallel → Shape → Shape
  | [], s => s
  | e :: rest, s => applyLogEntry n e (logShapeAux n rest s)

/-- Modelled from the spec: `GetLogicalShape(physical_shape, sbp, parallel_desc)`,
the pure inverse of `GetPhysicalShape`. -/
def GetLogicalShape (physicalShape : Shape) (sbp : ParallelDistribution)
    (pd : ParallelDesc) : Shape :=
  logShapeAux pd.parallelNum sbp physicalShape

/-! Tensor metas and their equality and hashing (`tensor_impl.cpp` lines 168-191). -/

/-- MirroredTensorMeta: shared shape pointer, dtype, device, plus the dynamic
flag that equality and hashing deliberately ignore. -/
structure MirroredTensorMeta where
  shapePtr : ShapePtr
  dtype : DataType
  device : Device
  isDynamic : Bool
deriving DecidableEq

/-- ConsistentTensorMeta: logical shape, dtype, placement signature and device
group, plus the ignored dynamic flag. -/
structure ConsistentTensorMeta where
  shape : Shape
  dtype : DataType
  parallelDistribution : ParallelDistribution
  parallelDesc : ParallelDesc
  isDynamic : Bool
deriving DecidableEq

/-- Modelled stand-in for `std::hash<Shape>`: some fixed concrete hash of the
dimension list (the source consumes the standard hash opaquely). -/
def hashNatList (l : List Nat) : Nat :=
  l.foldl (fun h d => h * 131 + (d + 1)) 17

/-- Modelled stand-in for `std::hash<DataType>`. -/
def DataType.hashVal : DataType → Nat
  | .kInvalidDataType => 0
  | .kChar => 1
  | .kFloat => 2
  | .kDouble => 3
  | .kInt32 => 4
  | .kInt64 => 5

/-- Modelled stand-in for a string hash, used by the device and desc hashes. -/
def hashString (s : String) : Nat :=
  s.data.foldl (fun h c => h * 131 + c.toNat) 23

/-- Modelled stand-in for `std::hash<Device>`. -/
def Device.hashVal (d : Device) : Nat :=
  hashString d.tag * 256 + d.id

/-- Modelled stand-in for a hash of one SBP entry. -/
def SbpParallel.hashVal : SbpParallel → Nat
  | .split a => a + 3
  | .broadcast => 1
  | .psum => 2

/-- Modelled stand-in for `std::hash<Symbol<cfg::ParallelDistribution>>`. -/
def hashSbpList (l : List SbpParallel) : Nat :=
  l.foldl (fun h e => h * 131 + e.hashVal) 29

/-- Modelled stand-in for `std::hash<Symbol<ParallelDesc>>`. -/
def ParallelDesc.hashVal (pd : ParallelDesc) : Nat :=
  hashString pd.deviceTag ^^^ hashNatList (pd.machineDeviceIds.map (fun p => p.1 * 4096 + p.2))

/-- MirroredTensorMeta::operator== — compares the pointed-to shape, dtype and
device by value and ignores the is_dynamic field (lines 168-172). -/
def MirroredTensorMeta.operatorEq (a b : MirroredTensorMeta) : Bool :=
  decide (a.shapePtr.val = b.shapePtr.val) && decide (a.dtype = b.dtype)
    && decide (a.device = b.device)

/-- MirroredTensorMeta::CalcHashValue — XOR of the component hashes, ignoring
the is_dynamic field (lines 174-178). -/
def MirroredTensorMeta.CalcHashValue (m : MirroredTensorMeta) : Nat :=
  hashNatList m.shapePtr.val ^^^ m.dtype.hashVal ^^^ m.device.hashVal

/-- ConsistentTensorMeta::operator== — compares shape, dtype, placement
signature and device group, ignoring the is_dynamic field (lines 180-185). -/
def ConsistentTensorMeta.operatorEq (a b : ConsistentTensorMeta) : Bool :=
  decide (a.shape = b.shape) && decide (a.dtype = b.dtype)
    && decide (a.parallelDistribution = b.parallelDistribution)
    && decide (a.parallelDesc = b.parallelDesc)

/-- ConsistentTensorMeta::CalcHashValue — XOR of the four component hashes
(lines 187-191). -/
def ConsistentTensorMeta.CalcHashValue (m : ConsistentTensorMeta) : Nat :=
  hashNatList m.shape ^^^ m.dtype.hashVal ^^^ hashSbpList m.parallelDistribution
    ^^^ m.parallelDesc.hashVal

/-! Gradient-slot delegation on the TensorImpl base class (lines 35-60). -/

/-- Autograd metadata object: the accumulated gradient slot (a possibly-null
tensor pointer, by id), the current gradient argument (by id) and the
retain-grad flag. -/
structure AutogradMeta where
  accGrad : Option Nat
  currentGrad : Nat
  retainGrad : Bool
deriving DecidableEq

/-- TensorImpl base-class state relevant to the gradient accessors: the
possibly-null autograd metadata pointer. -/
structure TensorImpl where
  autogradMeta : Option AutogradMeta
deriving DecidableEq

/-- TensorImpl::acc_grad (lines 35-38): null check, then delegate. -/
def TensorImpl.acc_grad (t : TensorImpl) : Except RtError (Option Nat) :=
  match t.autogradMeta with
  | none => .error (.nullPointer "autograd_meta_")
  | some m => .ok m.accGrad

/-- TensorImpl::current_grad (lines 40-43): null check, then delegate. -/
def TensorImpl.current_grad (t : TensorImpl) : Except RtError Nat :=
  match t.autogradMeta with
  | none => .error (.nullPointer "autograd_meta_")
  | some m => .ok m.currentGrad

/-- TensorImpl::set_acc_grad (lines 45-49): null check, then delegate the write. -/
def TensorImpl.set_acc_grad (t : TensorImpl) (grad : Option Nat) : Except RtError TensorImpl :=
  match t.autogradMeta with
  | none => .error (.nullPointer "autograd_meta_")
  | some m => .ok ⟨some { m with accGrad := grad }⟩

/-- TensorImpl::mut_acc_grad (lines 51-54): null check, then delegate. -/
def TensorImpl.mut_acc_grad (t : TensorImpl) : Except RtError (Option Nat) :=
  match t.autogradMeta with
  | none => .error (.nullPointer "autograd_meta_")
  | some m => .ok m.accGrad

/-- TensorImpl::set_retain_grad (lines 56-60): null check, then delegate the write. -/
def TensorImpl.set_retain_grad (t : TensorImpl) (retain : Bool) : Except RtError TensorImpl :=
  match t.autogradMeta with
  | none => .error (.nullPointer "autograd_meta_")
  | some m => .ok ⟨some { m with retainGrad := retain }⟩

/-! EagerBlobObject, TensorStorage and EagerMirroredTensorImpl
(lines 72-166). -/

/-- Blob descriptor of a `vm::EagerBlobObject`: the shape pointer (shared with
the tensor meta on the normal construction path) and the data type. -/
structure BlobDesc where
  shapePtr : ShapePtr
  dataType : DataType
deriving DecidableEq

/-- The physical, device-resident buffer (`vm::EagerBlobObject`): blob
descriptor, identity of the owned `vm::TensorBuffer`, and the shape-synced flag. -/
structure EagerBlobObject where
  blobDesc : BlobDesc
  tensorBuffer : Nat
  isShapeSynced : Bool
deriving DecidableEq

/-- One observable effect of invoking a storage releaser hook: either an
asynchronous `ReleaseTensor` instruction enqueued through the instruction
builder (`PhysicalRun`), or a synchronous free of the buffer. -/
inductive ReleaseEffect
  | enqueueReleaseTensor (blobBuffer : Nat) (pd : ParallelDesc)
  | syncFree (buffer : Nat)
deriving DecidableEq

/-- True iff the effect frees memory synchronously. -/
def ReleaseEffect.isSyncFree : ReleaseEffect → Bool
  | .syncFree _ => true
  | _ => false

/-- TensorStorage as seen from this file: the identity of the underlying buffer
and the installed releaser hook, represented by the list of effects one
invocation of the hook performs. -/
structure TensorStorage where
  buffer : Nat
  releaserHook : Option (List ReleaseEffect)
deriving DecidableEq

/-- Modelled from the spec: `Device::parallel_desc_ptr`, the single-device
`ParallelDesc` of a device (defined outside the excerpted sources; only carried
through to the release instruction here). -/
def Device.parallelDescPtr (d : Device) : ParallelDesc :=
  ⟨d.tag, [(0, d.id)]⟩

/-- LazyMirroredTensorImpl: tensor meta plus autograd flags, no physical buffer. -/
structure LazyMirroredTensorImpl where
  tensorMeta : MirroredTensorMeta
  requiresGrad : Bool
  isLeaf : Bool
deriving DecidableEq

/-- LazyMirroredTensorImpl::detach (lines 72-75): a fresh impl sharing the
tensor meta, with requires_grad = false and is_leaf = true. -/
def LazyMirroredTensorImpl.detach (impl : LazyMirroredTensorImpl) : LazyMirroredTensorImpl :=
  ⟨impl.tensorMeta, false, true⟩

/-- EagerMirroredTensorImpl: tensor meta, autograd flags, and the optional
eager blob object and tensor storage. -/
structure EagerMirroredTensorImpl where
  tensorMeta : MirroredTensorMeta
  requiresGrad : Bool
  isLeaf : Bool
  eagerBlobObject : Option EagerBlobObject
  tensorStorage : Option TensorStorage
deriving DecidableEq

/-- EagerMirroredTensorImpl::UpdateTensorStorage (lines 91-103): builds a fresh
TensorStorage over the blob's tensor buffer and installs a releaser hook that
enqueues a `ReleaseTensor` instruction for the blob through the instruction
builder inside `PhysicalRun`.  Dereferences `eager_blob_object_`, so the result
is undefined (`none`) when no blob is bound. -/
def EagerMirroredTensorImpl.UpdateTensorStorage (impl : EagerMirroredTensorImpl) :
    Option EagerMirroredTensorImpl :=
  match impl.eagerBlobObject with
  | none => none
  | some blob =>
    let pd := impl.tensorMeta.device.parallelDescPtr
    some { impl with
            tensorStorage := some ⟨blob.tensorBuffer,
              some [ReleaseEffect.enqueueReleaseTensor blob.tensorBuffer pd]⟩ }

/-- EagerMirroredTensorImpl::InitEagerBlobObjectAndTensorStorage (lines
121-128): fails unless the blob's tensor buffer equals the storage's buffer,
then binds both. -/
def EagerMirroredTensorImpl.InitEagerBlobObjectAndTensorStorage
    (impl : EagerMirroredTensorImpl) (blob : EagerBlobObject)
    (storage : TensorStorage) : Except RtError EagerMirroredTensorImpl :=
  if blob.tensorBuffer = storage.buffer then
    .ok { impl with eagerBlobObject := some blob, tensorStorage := some storage }
  else
    .error (.checkFailed "tensor_buffer differs from storage buffer")

/-- EagerMirroredTensorImpl::set_eager_blob_object (lines 130-138): stores the
blob first (mutation happens before the checks), then fails unless the blob's
shape pointer is the very same pointer as the tensor meta's and the data types
agree, and finally establishes the storage via UpdateTensorStorage.  Returns
the post-call state together with the `Maybe` result. -/
def EagerMirroredTensorImpl.set_eager_blob_object (impl : EagerMirroredTensorImpl)
    (blob : EagerBlobObject) : EagerMirroredTensorImpl × Except RtError Unit :=
  let impl1 := { impl with eagerBlobObject := some blob }
  if blob.blobDesc.shapePtr.id ≠ impl1.tensorMeta.shapePtr.id then
    (impl1, .error (.checkFailed "blob shape pointer differs from tensor meta shape pointer"))
  else if blob.blobDesc.dataType ≠ impl1.tensorMeta.dtype then
    (impl1, .error (.checkFailed "blob data type differs from tensor meta data type"))
  else
    match impl1.UpdateTensorStorage with
    | some impl2 => (impl2, .ok ())
    | none => (impl1, .error (.checkFailed "no eager blob object"))

/-- EagerMirroredTensorImpl::InitEagerBlobObject (lines 109-119): builds a
fresh blob sharing the tensor meta's shape pointer and dtype over a newly
allocated tensor buffer (modelled with buffer id 0; no claim distinguishes
allocation identities) and hands it to set_eager_blob_object.  The device
presence check of the source is vacuous here because the meta's device is
always present in this embedding. -/
def EagerMirroredTensorImpl.InitEagerBlobObject (impl : EagerMirroredTensorImpl) :
    EagerMirroredTensorImpl × Except RtError Unit :=
  let blob : EagerBlobObject :=
    ⟨⟨impl.tensorMeta.shapePtr, impl.tensorMeta.dtype⟩, 0, false⟩
  impl.set_eager_blob_object blob

/-- Result of one call to EagerMirroredTensorImpl::shape(): the returned shape
pointer, whether the call entered the VM rendezvous (spin-wait), and the state
after the call. -/
structure ShapeCallResult where
  shapePtr : ShapePtr
  enteredRendezvous : Bool
  state : EagerMirroredTensorImpl
deriving DecidableEq

/-- EagerMirroredTensorImpl::shape (lines 140-159): with no blob, return the
meta's shape pointer immediately; with a synced blob, return the blob's shape
pointer immediately; otherwise enter the rendezvous (AccessBlobByCallback plus
spin-wait, which terminates once the producing instruction completes), mark the
blob's shape synced, and return the blob's shape pointer. -/
def EagerMirroredTensorImpl.shapeCall (impl : EagerMirroredTensorImpl) : ShapeCallResult :=
  match impl.eagerBlobObject with
  | none => ⟨impl.tensorMeta.shapePtr, false, impl⟩
  | some blob =>
    if blob.isShapeSynced then
      ⟨blob.blobDesc.shapePtr, false, impl⟩
    else
      let blob2 := { blob with isShapeSynced := true }
      ⟨blob2.blobDesc.shapePtr, true, { impl with eagerBlobObject := some blob2 }⟩

/-- EagerMirroredTensorImpl::detach (lines 161-166): a fresh impl sharing the
tensor meta, the tensor storage and the eager blob object, with
requires_grad = false and is_leaf = true. -/
def EagerMirroredTensorImpl.detach (impl : EagerMirroredTensorImpl) : EagerMirroredTensorImpl :=
  ⟨impl.tensorMeta, false, true, impl.eagerBlobObject, impl.tensorStorage⟩

/-! EagerConsistentTensorImpl and its construction protocol (lines 193-261). -/

/-- The per-rank physical tensor (`one::MirroredTensor`) as consumed here:
laziness, its tensor meta (shape, dtype, device), and the autograd flags. -/
structure MirroredTensor where
  isLazy : Bool
  meta : MirroredTensorMeta
  requiresGrad : Bool
  isLeaf : Bool
deriving DecidableEq

/-- Wrap an eager mirrored impl as a MirroredTensor (eager, hence not lazy). -/
def MirroredTensor.ofEagerImpl (impl : EagerMirroredTensorImpl) : MirroredTensor :=
  ⟨false, impl.tensorMeta, impl.requiresGrad, impl.isLeaf⟩

/-- EagerConsistentTensorImpl: the interned consistent meta, the autograd flags
of the base class, and the optional current-rank physical tensor. -/
structure EagerConsistentTensorImpl where
  consistentTensorMeta : ConsistentTensorMeta
  requiresGrad : Bool
  isLeaf : Bool
  curRankPhyTensor : Option MirroredTensor
deriving DecidableEq

/-- The four-argument EagerConsistentTensorImpl constructor (lines 193-198).
It initializes the base class from `cur_rank_phy_tensor->requires_grad()` and
`cur_rank_phy_tensor->is_leaf()` — unconditionally dereferencing the pointer
and ignoring the `requiresGrad` and `isLeaf` parameters — so the call is
undefined behavior when the pointer is null. -/
def EagerConsistentTensorImpl.ctor (meta : ConsistentTensorMeta)
    (requiresGrad isLeaf : Bool) (curRankPhyTensor : Option MirroredTensor) :
    Outcome EagerConsistentTensorImpl :=
  match curRankPhyTensor with
  | none => .undefinedBehavior
  | some t => .ok ⟨meta, t.requiresGrad, t.isLeaf, some t⟩

/-- Modelled from the spec: `Device::ThreadLocalGetOrNew(device_tag,
device_id)` (defined outside the excerpted sources) — the device value with
that tag and id. -/
def Device.threadLocalGetOrNew (tag : String) (deviceId : Nat) : Device :=
  ⟨tag, deviceId⟩

/-- EagerConsistentTensorImpl::New from an existing per-rank physical tensor
(lines 200-221): requires the tensor be non-lazy, requires its device to equal
the device this rank computes for the target ParallelDesc, then derives the
logical shape with GetLogicalShape and builds the consistent impl around the
physical tensor. -/
def EagerConsistentTensorImpl.NewFromCurRankPhyTensor (t : MirroredTensor)
    (parallelDistribution : ParallelDistribution) (parallelDesc : ParallelDesc)
    (ctx : ProcessCtx) : Outcome EagerConsistentTensorImpl :=
  if t.isLazy then
    .error (.checkFailed "cur_rank_phy_tensor is lazy")
  else
    let device := Device.threadLocalGetOrNew parallelDesc.deviceTag ctx.deviceId
    if device ≠ t.meta.device then
      .error (.checkFailed "only LocalTensors on current rank Device can be casted to ConsistentTensor")
    else
      let shape := GetLogicalShape t.meta.shapePtr.val parallelDistribution parallelDesc
      let meta : ConsistentTensorMeta :=
        ⟨shape, t.meta.dtype, parallelDistribution, parallelDesc, false⟩
      EagerConsistentTensorImpl.ctor meta t.requiresGrad t.isLeaf (some t)

/-- EagerConsistentTensorImpl::NewWithPhyTensor (lines 234-253): synthesizes
the current rank's physical shape via GetPhysicalShape, builds a fresh
EagerMirroredTensorImpl bound to a new blob (InitEagerBlobObject), wraps it as
a MirroredTensor, and runs the four-argument constructor with it.  The fresh
physical meta's shape pointer is a new allocation (modelled with pointer id 0;
no claim compares it against an unrelated pointer). -/
def EagerConsistentTensorImpl.NewWithPhyTensor (meta : ConsistentTensorMeta)
    (device : Option Device) (parallelId : Int) (requiresGrad isLeaf : Bool) :
    Outcome EagerConsistentTensorImpl :=
  match GetPhysicalShape meta.shape meta.parallelDistribution meta.parallelDesc parallelId with
  | none => .error (.checkFailed "GetPhysicalShape failed")
  | some physShape =>
    match device with
    | none => .undefinedBehavior
    | some dev =>
      let phyMeta : MirroredTensorMeta := ⟨⟨0, physShape⟩, meta.dtype, dev, false⟩
      let phyImpl0 : EagerMirroredTensorImpl := ⟨phyMeta, requiresGrad, isLeaf, none, none⟩
      match phyImpl0.InitEagerBlobObject with
      | (_, .error e) => .error e
      | (phyImpl, .ok _) =>
        let t := MirroredTensor.ofEagerImpl phyImpl
        EagerConsistentTensorImpl.ctor meta t.requiresGrad t.isLeaf (some t)

/-- EagerConsistentTensorImpl::NewWithoutPhyTensor (lines 255-261): runs the
four-argument constructor with an empty `shared_ptr<MirroredTensor>`. -/
def EagerConsistentTensorImpl.NewWithoutPhyTensor (meta : ConsistentTensorMeta)
    (device : Option Device) (parallelId : Int) (requiresGrad isLeaf : Bool) :
    Outcome EagerConsistentTensorImpl :=
  let _ := device
  let _ := parallelId
  EagerConsistentTensorImpl.ctor meta requiresGrad isLeaf none

/-- Modelled from the spec: `ParallelDesc::GetDevice4CurrentProcessCtx`
(defined outside the excerpted sources) — returns the current process's device
and its parallel id when the process participates in the group, and no device
(with parallel id -1) otherwise. -/
def ParallelDesc.getDevice4CurrentProcessCtx (pd : ParallelDesc) (ctx : ProcessCtx) :
    Option Device × Int :=
  match pd.machineDeviceIds.findIdx? (fun p => decide (p = (ctx.machineId, ctx.deviceId))) with
  | some i => (some ⟨pd.deviceTag, ctx.deviceId⟩, (i : Int))
  | none => (none, -1)

/-- EagerConsistentTensorImpl::New from a ConsistentTensorMeta alone (lines
223-232): dispatches on whether the current process participates in the
ParallelDesc — NewWithPhyTensor when it does, NewWithoutPhyTensor when it does
not. -/
def EagerConsistentTensorImpl.NewFromConsistentTensorMeta (meta : ConsistentTensorMeta)
    (ctx : ProcessCtx) (requiresGrad isLeaf : Bool) : Outcome EagerConsistentTensorImpl :=
  let lookup := meta.parallelDesc.getDevice4CurrentProcessCtx ctx
  match lookup.1 with
  | some dev =>
    EagerConsistentTensorImpl.NewWithPhyTensor meta (some dev) lookup.2 requiresGrad isLeaf
  | none =>
    EagerConsistentTensorImpl.NewWithoutPhyTensor meta none lookup.2 requiresGrad isLeaf

/-! TensorStorage reference counting and the at-most-once releaser hook.
The TensorStorage class itself is defined outside the excerpted sources, so
its release discipline is modelled from the spec. -/

/-- An ownership event on one TensorStorage: a TensorImpl acquiring a shared
reference, or dropping one. -/
inductive StorageEvent
  | acquire
  | release
deriving DecidableEq

/-- Modelled from the spec: the reference-counting state of one TensorStorage —
the number of live owners and whether the releaser hook has already fired. -/
structure StorageState where
  refCount : Nat
  hookFired : Bool
deriving DecidableEq

/-- Modelled from the spec: one ownership event.  Dropping the last reference
fires the releaser hook, and the hook fires only if it has not fired before;
the returned number counts the hook invocations caused by this event. -/
def stepStorage (s : StorageState) : StorageEvent → StorageState × Nat
  | .acquire => ({ s with refCount := s.refCount + 1 }, 0)
  | .release =>
    if s.refCount = 0 then (s, 0)
    else if s.refCount = 1 then
      (⟨0, true⟩, if s.hookFired then 0 else 1)
    else
      ({ s with refCount := s.refCount - 1 }, 0)

/-- Modelled from the spec: run a sequence of ownership events, returning the
final state and the total number of hook invocations. -/
def runStorage (s : StorageState) : List StorageEvent → StorageState × Nat
  | [] => (s, 0)
  | e :: evs =>
    let r := stepStorage s e
    let r2 := runStorage r.1 evs
    (r2.1, r.2 + r2.2)

/-! Helper lemmas about list updates, shared by the placement proofs. -/

theorem lt_length_of_getElem?_some (l : List Nat) :
    ∀ (i d : Nat), l[i]? = some d → i < l.length := by
  induction l with
  | nil => intro i d h; simp at h
  | cons x xs ih =>
    intro i d h
    cases i with
    | zero => simp
    | succ n =>
      simp only [List.getElem?_cons_succ] at h
      simpa using ih n d h

theorem getD_set_self (l : List Nat) :
    ∀ (i a : Nat), i < l.length → (l.set i a).getD i 0 = a := by
  induction l with
  | nil => intro i a h; simp at h
  | cons x xs ih =>
    intro i a h
    cases i with
    | zero => rfl
    | succ n =>
      have hn : n < xs.length := by simpa using h
      simpa [List.getD_cons_succ] using ih n a hn

theorem set_eq_self_of_getElem?_some (l : List Nat) :
    ∀ (i d : Nat), l[i]? = some d → l.set i d = l := by
  induction l with
  | nil => intro i d h; simp at h
  | cons x xs ih =>
    intro i d h
    cases i with
    | zero =>
      simp only [List.getElem?_cons_zero, Option.some.injEq] at h
      simp [h]
    | succ n =>
      simp only [List.getElem?_cons_succ] at h
      simp [ih n d h]

/-- Inverting one SBP entry: whenever the physical projection of an entry
succeeds, the logical reconstruction of that entry undoes it. -/
theorem applyLog_applyPhysEntry (n : Nat) (e : SbpParallel) (s t : Shape)
    (h : applyPhysEntry n e s = some t) : applyLogEntry n e t = s := by
  cases e with
  | broadcast =>
    simp only [applyPhysEntry, Option.some.injEq] at h
    simp [applyLogEntry, ← h]
  | psum =>
    simp only [applyPhysEntry, Option.some.injEq] at h
    simp [applyLogEntry, ← h]
  | split axis =>
    simp only [applyPhysEntry, applySplitPhys] at h
    cases hg : s[axis]? with
    | none => rw [hg] at h; exact absurd h (by simp)
    | some d =>
      rw [hg] at h
      simp only [Option.some_bind] at h
      by_cases hc : 0 < n ∧ d % n = 0
      · rw [if_pos hc] at h
        obtain ⟨hn, hd⟩ := hc
        have ht : s.set axis (d / n) = t := by injection h
        subst ht
        simp only [applyLogEntry]
        have hlen : axis < s.length := lt_length_of_getElem?_some s axis d hg
        rw [getD_set_self s axis (d / n) hlen]
        rw [Nat.mul_div_cancel' (Nat.dvd_of_mod_eq_zero hd)]
        rw [List.set_set]
        exact set_eq_self_of_getElem?_some s axis d hg
      · rw [if_neg hc] at h; exact absurd h (by simp)

/-- Inverting a full SBP signature entry by entry. -/
theorem physShapeAux_round (n : Nat) : ∀ (sbp : List SbpParallel) (s t : Shape),
    physShapeAux n sbp s = some t → logShapeAux n sbp t = s := by
  intro sbp
  induction sbp with
  | nil =>
    intro s t h
    simp only [physShapeAux, Option.some.injEq] at h
    simp [logShapeAux, h]
  | cons e rest ih =>
    intro s t h
    simp only [physShapeAux] at h
    cases he : applyPhysEntry n e s with
    | none => rw [he] at h; simp at h
    | some s1 =>
      rw [he] at h
      simp only [Option.some_bind] at h
      simp only [logShapeAux]
      rw [ih s1 t h]
      exact applyLog_applyPhysEntry n e s s1 he

/-- C1: for every valid input (logical shape, ParallelDistribution,
ParallelDesc, rank), the placement translations round-trip:
`GetLogicalShape (GetPhysicalShape shape sbp pd rank) sbp pd = shape` whenever
`GetPhysicalShape` succeeds for that rank.  Both functions are pure Lean
functions, hence side-effect-free by construction. -/
theorem round_trip_logical_physical_shape (L : Shape) (sbp : ParallelDistribution)
    (pd : ParallelDesc) (r : Int) (P : Shape)
    (h : GetPhysicalShape L sbp pd r = some P) : GetLogicalShape P sbp pd = L := by
  unfold GetPhysicalShape at h
  split at h
  · exact physShapeAux_round pd.parallelNum sbp L P h
  · simp at h

/-- Witness for C1: logical shape [8, 4] split on axis 0 over four ranks gives
physical shape [2, 4] on rank 1, and reconstructing yields [8, 4] again. -/
theorem round_trip_logical_physical_shape_witness :
    GetPhysicalShape [8, 4] [SbpParallel.split 0] ⟨"cpu", [(0, 0), (0, 1), (0, 2), (0, 3)]⟩ 1
      = some [2, 4] ∧
    GetLogicalShape [2, 4] [SbpParallel.split 0] ⟨"cpu", [(0, 0), (0, 1), (0, 2), (0, 3)]⟩
      = [8, 4] :=
  ⟨by decide,
   round_trip_logical_physical_shape [8, 4] [SbpParallel.split 0]
     ⟨"cpu", [(0, 0), (0, 1), (0, 2), (0, 3)]⟩ 1 [2, 4] (by decide)⟩

/-- C2: shape() on an EagerMirroredTensorImpl returns immediately, without
entering the VM rendezvous, when there is no blob (returning the meta's shape)
or when the blob's shape is already synced; and after any first call the second
call returns the same shape pointer and never re-enters the rendezvous,
because the synced flag, once set, sticks. -/
theorem eager_mirrored_shape_fast_path_and_sticky :
    (∀ impl : EagerMirroredTensorImpl, impl.eagerBlobObject = none →
      impl.shapeCall.enteredRendezvous = false ∧
      impl.shapeCall.shapePtr = impl.tensorMeta.shapePtr) ∧
    (∀ (impl : EagerMirroredTensorImpl) (blob : EagerBlobObject),
      impl.eagerBlobObject = some blob → blob.isShapeSynced = true →
      impl.shapeCall.enteredRendezvous = false) ∧
    (∀ impl : EagerMirroredTensorImpl,
      impl.shapeCall.state.shapeCall.shapePtr = impl.shapeCall.shapePtr ∧
      impl.shapeCall.state.shapeCall.enteredRendezvous = false) := by
  refine ⟨?_, ?_, ?_⟩
  · intro impl h
    simp [EagerMirroredTensorImpl.shapeCall, h]
  · intro impl blob h hs
    simp [EagerMirroredTensorImpl.shapeCall, h, hs]
  · intro impl
    cases h : impl.eagerBlobObject with
    | none => simp [EagerMirroredTensorImpl.shapeCall, h]
    | some blob =>
      cases hs : blob.isShapeSynced with
      | true => simp [EagerMirroredTensorImpl.shapeCall, h, hs]
      | false => simp [EagerMirroredTensorImpl.shapeCall, h, hs]

/-- Witness for C2: a blob-less impl returns the meta's shape with no
rendezvous, and an impl with a synced blob also skips the rendezvous. -/
theorem eager_mirrored_shape_fast_path_and_sticky_witness :
    ((⟨⟨⟨1, [3]⟩, DataType.kFloat, ⟨"cpu", 0⟩, false⟩, false, true, none, none⟩ :
        EagerMirroredTensorImpl).shapeCall.enteredRendezvous = false ∧
      (⟨⟨⟨1, [3]⟩, DataType.kFloat, ⟨"cpu", 0⟩, false⟩, false, true, none, none⟩ :
        EagerMirroredTensorImpl).shapeCall.shapePtr =
        (⟨⟨⟨1, [3]⟩, DataType.kFloat, ⟨"cpu", 0⟩, false⟩, false, true, none, none⟩ :
          EagerMirroredTensorImpl).tensorMeta.shapePtr) ∧
    (⟨⟨⟨1, [3]⟩, DataType.kFloat, ⟨"cpu", 0⟩, false⟩, false, true,
        some ⟨⟨⟨1, [3]⟩, DataType.kFloat⟩, 7, true⟩, none⟩ :
      EagerMirroredTensorImpl).shapeCall.enteredRendezvous = false :=
  ⟨eager_mirrored_shape_fast_path_and_sticky.1
      ⟨⟨⟨1, [3]⟩, DataType.kFloat, ⟨"cpu", 0⟩, false⟩, false, true, none, none⟩ rfl,
   eager_mirrored_shape_fast_path_and_sticky.2.1
      ⟨⟨⟨1, [3]⟩, DataType.kFloat, ⟨"cpu", 0⟩, false⟩, false, true,
        some ⟨⟨⟨1, [3]⟩, DataType.kFloat⟩, 7, true⟩, none⟩
      ⟨⟨⟨1, [3]⟩, DataType.kFloat⟩, 7, true⟩ rfl rfl⟩

/-- C4: the four-argument EagerConsistentTensorImpl constructor dereferences
its cur_rank_phy_tensor argument for requires_grad() and is_leaf(), ignoring
the requires_grad and is_leaf parameters it was passed, so it is well-defined
only when the pointer is non-null — and NewWithoutPhyTensor violates exactly
that precondition by passing an empty shared_ptr. -/
theorem eager_consistent_ctor_requires_nonnull_phy_tensor :
    (∀ (meta : ConsistentTensorMeta) (rg leaf : Bool) (t : MirroredTensor),
      EagerConsistentTensorImpl.ctor meta rg leaf (some t) =
        Outcome.ok ⟨meta, t.requiresGrad, t.isLeaf, some t⟩) ∧
    (∀ (meta : ConsistentTensorMeta) (rg leaf : Bool),
      EagerConsistentTensorImpl.ctor meta rg leaf none = Outcome.undefinedBehavior) ∧
    (∀ (meta : ConsistentTensorMeta) (device : Option Device) (pid : Int) (rg leaf : Bool),
      EagerConsistentTensorImpl.NewWithoutPhyTensor meta device pid rg leaf =
        Outcome.undefinedBehavior) :=
  ⟨fun _ _ _ _ => rfl, fun _ _ _ => rfl, fun _ _ _ _ _ => rfl⟩

/-- C3 evaluation at the failing input: constructing an
EagerConsistentTensorImpl from a ConsistentTensorMeta whose ParallelDesc does
not contain the current process (machine 0, device 0 versus a group on machine
1) dispatches to NewWithoutPhyTensor, which hands a null cur_rank_phy_tensor
to the dereferencing constructor: the result is undefined behavior, not the
queryable absent-tensor success the spec requires. -/
theorem new_from_meta_absent_rank_is_undefined :
    EagerConsistentTensorImpl.NewFromConsistentTensorMeta
      ⟨[2, 2], DataType.kFloat, [SbpParallel.broadcast], ⟨"cpu", [(1, 0)]⟩, false⟩
      ⟨0, 0⟩ false true = Outcome.undefinedBehavior := by
  rfl

/-- C5: promoting a per-rank physical tensor to a consistent tensor fails with
a typed error when the tensor is lazy or when its device differs from the
device this rank computes for the target ParallelDesc; on success the
consistent meta's logical shape is GetLogicalShape of the physical shape under
the given ParallelDistribution and ParallelDesc. -/
theorem new_from_phy_tensor_checks_and_logical_shape :
    (∀ (t : MirroredTensor) (nd : ParallelDistribution) (pd : ParallelDesc) (ctx : ProcessCtx),
      t.isLazy = true →
      EagerConsistentTensorImpl.NewFromCurRankPhyTensor t nd pd ctx =
        Outcome.error (.checkFailed "cur_rank_phy_tensor is lazy")) ∧
    (∀ (t : MirroredTensor) (nd : ParallelDistribution) (pd : ParallelDesc) (ctx : ProcessCtx),
      t.isLazy = false →
      Device.threadLocalGetOrNew pd.deviceTag ctx.deviceId ≠ t.meta.device →
      EagerConsistentTensorImpl.NewFromCurRankPhyTensor t nd pd ctx =
        Outcome.error
          (.checkFailed "only LocalTensors on current rank Device can be casted to ConsistentTensor")) ∧
    (∀ (t : MirroredTensor) (nd : ParallelDistribution) (pd : ParallelDesc) (ctx : ProcessCtx)
        (impl : EagerConsistentTensorImpl),
      EagerConsistentTensorImpl.NewFromCurRankPhyTensor t nd pd ctx = Outcome.ok impl →
      impl.consistentTensorMeta.shape = GetLogicalShape t.meta.shapePtr.val nd pd ∧
      impl.curRankPhyTensor = some t ∧
      impl.consistentTensorMeta.parallelDistribution = nd ∧
      impl.consistentTensorMeta.parallelDesc = pd) := by
  refine ⟨?_, ?_, ?_⟩
  · intro t nd pd ctx h
    simp [EagerConsistentTensorImpl.NewFromCurRankPhyTensor, h]
  · intro t nd pd ctx h hd
    simp [EagerConsistentTensorImpl.NewFromCurRankPhyTensor, h, hd]
  · intro t nd pd ctx impl h
    simp only [EagerConsistentTensorImpl.NewFromCurRankPhyTensor,
      EagerConsistentTensorImpl.ctor] at h
    split at h
    · exact absurd h (by simp)
    · split at h
      · exact absurd h (by simp)
      · injection h with h2
        subst h2
        exact ⟨rfl, rfl, rfl, rfl⟩

/-- Witness for C5: a lazy tensor is rejected, a tensor on the wrong device is
rejected with the placement error, and a successful promotion of a [2, 4]
shard split on axis 0 over two ranks yields logical shape [4, 4]. -/
theorem new_from_phy_tensor_checks_and_logical_shape_witness :
    EagerConsistentTensorImpl.NewFromCurRankPhyTensor
        ⟨true, ⟨⟨0, [2, 4]⟩, DataType.kFloat, ⟨"cpu", 0⟩, false⟩, false, true⟩
        [SbpParallel.split 0] ⟨"cpu", [(0, 0), (0, 1)]⟩ ⟨0, 0⟩ =
      Outcome.error (.checkFailed "cur_rank_phy_tensor is lazy") ∧
    EagerConsistentTensorImpl.NewFromCurRankPhyTensor
        ⟨false, ⟨⟨0, [2, 4]⟩, DataType.kFloat, ⟨"cuda", 3⟩, false⟩, false, true⟩
        [SbpParallel.split 0] ⟨"cpu", [(0, 0), (0, 1)]⟩ ⟨0, 0⟩ =
      Outcome.error
        (.checkFailed "only LocalTensors on current rank Device can be casted to ConsistentTensor") ∧
    (⟨⟨[4, 4], DataType.kFloat, [SbpParallel.split 0], ⟨"cpu", [(0, 0), (0, 1)]⟩, false⟩,
        false, true,
        some ⟨false, ⟨⟨0, [2, 4]⟩, DataType.kFloat, ⟨"cpu", 0⟩, false⟩, false, true⟩⟩ :
      EagerConsistentTensorImpl).consistentTensorMeta.shape =
      GetLogicalShape [2, 4] [SbpParallel.split 0] ⟨"cpu", [(0, 0), (0, 1)]⟩ :=
  ⟨new_from_phy_tensor_checks_and_logical_shape.1
      ⟨true, ⟨⟨0, [2, 4]⟩, DataType.kFloat, ⟨"cpu", 0⟩, false⟩, false, true⟩
      [SbpParallel.split 0] ⟨"cpu", [(0, 0), (0, 1)]⟩ ⟨0, 0⟩ rfl,
   new_from_phy_tensor_checks_and_logical_shape.2.1
      ⟨false, ⟨⟨0, [2, 4]⟩, DataType.kFloat, ⟨"cuda", 3⟩, false⟩, false, true⟩
      [SbpParallel.split 0] ⟨"cpu", [(0, 0), (0, 1)]⟩ ⟨0, 0⟩ rfl (by decide),
   (new_from_phy_tensor_checks_and_logical_shape.2.2
      ⟨false, ⟨⟨0, [2, 4]⟩, DataType.kFloat, ⟨"cpu", 0⟩, false⟩, false, true⟩
      [SbpParallel.split 0] ⟨"cpu", [(0, 0), (0, 1)]⟩ ⟨0, 0⟩
      ⟨⟨[4, 4], DataType.kFloat, [SbpParallel.split 0], ⟨"cpu", [(0, 0), (0, 1)]⟩, false⟩,
        false, true,
        some ⟨false, ⟨⟨0, [2, 4]⟩, DataType.kFloat, ⟨"cpu", 0⟩, false⟩, false, true⟩⟩
      (by decide)).1⟩

/-- C6: two MirroredTensorMeta values with the same shape (even behind
different shape pointers), dtype and device — and two ConsistentTensorMeta
values with the same shape, dtype, ParallelDistribution and ParallelDesc —
compare equal under operator== and hash equal under CalcHashValue, whatever
their is_dynamic flags: neither equality nor hash depends on that flag. -/
theorem meta_eq_and_hash_ignore_dynamic_flag :
    (∀ (i j : Nat) (s : Shape) (dt : DataType) (dv : Device) (b1 b2 : Bool),
      MirroredTensorMeta.operatorEq ⟨⟨i, s⟩, dt, dv, b1⟩ ⟨⟨j, s⟩, dt, dv, b2⟩ = true ∧
      MirroredTensorMeta.CalcHashValue ⟨⟨i, s⟩, dt, dv, b1⟩ =
        MirroredTensorMeta.CalcHashValue ⟨⟨j, s⟩, dt, dv, b2⟩) ∧
    (∀ (s : Shape) (dt : DataType) (nd : ParallelDistribution) (pd : ParallelDesc)
        (b1 b2 : Bool),
      ConsistentTensorMeta.operatorEq ⟨s, dt, nd, pd, b1⟩ ⟨s, dt, nd, pd, b2⟩ = true ∧
      ConsistentTensorMeta.CalcHashValue ⟨s, dt, nd, pd, b1⟩ =
        ConsistentTensorMeta.CalcHashValue ⟨s, dt, nd, pd, b2⟩) := by
  refine ⟨?_, ?_⟩
  · intro i j s dt dv b1 b2
    exact ⟨by simp [MirroredTensorMeta.operatorEq], rfl⟩
  · intro s dt nd pd b1 b2
    exact ⟨by simp [ConsistentTensorMeta.operatorEq], rfl⟩

/-- C7: detach() on a Lazy or Eager mirrored impl yields an impl with
requires_grad = false and is_leaf = true sharing the source's tensor meta, and
for the Eager variant additionally sharing the same eager blob object and
tensor storage. -/
theorem detach_resets_autograd_and_shares_meta :
    (∀ impl : LazyMirroredTensorImpl,
      impl.detach.tensorMeta = impl.tensorMeta ∧
      impl.detach.requiresGrad = false ∧
      impl.detach.isLeaf = true) ∧
    (∀ impl : EagerMirroredTensorImpl,
      impl.detach.tensorMeta = impl.tensorMeta ∧
      impl.detach.requiresGrad = false ∧
      impl.detach.isLeaf = true ∧
      impl.detach.eagerBlobObject = impl.eagerBlobObject ∧
      impl.detach.tensorStorage = impl.tensorStorage) :=
  ⟨fun _ => ⟨rfl, rfl, rfl⟩, fun _ => ⟨rfl, rfl, rfl, rfl, rfl⟩⟩

/-- C8: each gradient accessor on a TensorImpl with a null autograd-metadata
pointer fails with a null-reference error returned as a typed result, and with
a non-null pointer each delegates to that object. -/
theorem grad_accessors_require_autograd_meta :
    (∀ t : TensorImpl, t.autogradMeta = none →
      t.acc_grad = Except.error (.nullPointer "autograd_meta_") ∧
      t.current_grad = Except.error (.nullPointer "autograd_meta_") ∧
      (∀ g, t.set_acc_grad g = Except.error (.nullPointer "autograd_meta_")) ∧
      t.mut_acc_grad = Except.error (.nullPointer "autograd_meta_") ∧
      (∀ b, t.set_retain_grad b = Except.error (.nullPointer "autograd_meta_"))) ∧
    (∀ (t : TensorImpl) (m : AutogradMeta), t.autogradMeta = some m →
      t.acc_grad = Except.ok m.accGrad ∧
      t.current_grad = Except.ok m.currentGrad ∧
      (∀ g, t.set_acc_grad g = Except.ok ⟨some { m with accGrad := g }⟩) ∧
      t.mut_acc_grad = Except.ok m.accGrad ∧
      (∀ b, t.set_retain_grad b = Except.ok ⟨some { m with retainGrad := b }⟩)) := by
  constructor
  · rintro ⟨ag⟩ h
    cases h
    exact ⟨rfl, rfl, fun _ => rfl, rfl, fun _ => rfl⟩
  · rintro ⟨ag⟩ m h
    cases h
    exact ⟨rfl, rfl, fun _ => rfl, rfl, fun _ => rfl⟩

/-- Witness for C8: the null impl yields the typed null-pointer error, and an
impl with metadata delegates acc_grad to the stored slot. -/
theorem grad_accessors_require_autograd_meta_witness :
    TensorImpl.acc_grad ⟨none⟩ = Except.error (.nullPointer "autograd_meta_") ∧
    TensorImpl.acc_grad ⟨some ⟨some 5, 9, false⟩⟩ = Except.ok (some 5) :=
  ⟨(grad_accessors_require_autograd_meta.1 ⟨none⟩ rfl).1,
   (grad_accessors_require_autograd_meta.2 ⟨some ⟨some 5, 9, false⟩⟩ ⟨some 5, 9, false⟩ rfl).1⟩

/-- C9: a blob and a storage bound to the same EagerMirroredTensorImpl have
equal underlying buffers: InitEagerBlobObjectAndTensorStorage fails when the
blob's tensor buffer differs from the storage's buffer and binds both (with
equal buffers) otherwise; set_eager_blob_object fails unless the blob's shape
pointer is the meta's shape pointer and the data types agree, and on success
establishes a storage over exactly the blob's buffer. -/
theorem blob_storage_binding_buffer_checks :
    (∀ (impl : EagerMirroredTensorImpl) (blob : EagerBlobObject) (storage : TensorStorage),
      blob.tensorBuffer ≠ storage.buffer →
      impl.InitEagerBlobObjectAndTensorStorage blob storage =
        Except.error (.checkFailed "tensor_buffer differs from storage buffer")) ∧
    (∀ (impl : EagerMirroredTensorImpl) (blob : EagerBlobObject) (storage : TensorStorage)
        (impl2 : EagerMirroredTensorImpl),
      impl.InitEagerBlobObjectAndTensorStorage blob storage = Except.ok impl2 →
      impl2.eagerBlobObject = some blob ∧ impl2.tensorStorage = some storage ∧
      blob.tensorBuffer = storage.buffer) ∧
    (∀ (impl : EagerMirroredTensorImpl) (blob : EagerBlobObject),
      blob.blobDesc.shapePtr.id ≠ impl.tensorMeta.shapePtr.id ∨
        blob.blobDesc.dataType ≠ impl.tensorMeta.dtype →
      ∃ e, (impl.set_eager_blob_object blob).2 = Except.error e) ∧
    (∀ (impl : EagerMirroredTensorImpl) (blob : EagerBlobObject),
      (impl.set_eager_blob_object blob).2 = Except.ok () →
      blob.blobDesc.shapePtr.id = impl.tensorMeta.shapePtr.id ∧
      blob.blobDesc.dataType = impl.tensorMeta.dtype ∧
      (impl.set_eager_blob_object blob).1.eagerBlobObject = some blob ∧
      (impl.set_eager_blob_object blob).1.tensorStorage =
        some ⟨blob.tensorBuffer,
          some [ReleaseEffect.enqueueReleaseTensor blob.tensorBuffer
            impl.tensorMeta.device.parallelDescPtr]⟩) := by
  refine ⟨?_, ?_, ?_, ?_⟩
  · intro impl blob storage h
    simp [EagerMirroredTensorImpl.InitEagerBlobObjectAndTensorStorage, h]
  · intro impl blob storage impl2 h
    unfold EagerMirroredTensorImpl.InitEagerBlobObjectAndTensorStorage at h
    split at h
    · injection h with h2
      subst h2
      exact ⟨rfl, rfl, by assumption⟩
    · exact absurd h (by simp)
  · intro impl blob h
    by_cases hid : blob.blobDesc.shapePtr.id = impl.tensorMeta.shapePtr.id
    · have hdt : blob.blobDesc.dataType ≠ impl.tensorMeta.dtype := by
        rcases h with h | h
        · exact absurd hid h
        · exact h
      exact ⟨.checkFailed "blob data type differs from tensor meta data type",
        by simp [EagerMirroredTensorImpl.set_eager_blob_object, hid, hdt]⟩
    · exact ⟨.checkFailed "blob shape pointer differs from tensor meta shape pointer",
        by simp [EagerMirroredTensorImpl.set_eager_blob_object, hid]⟩
  · intro impl blob h
    by_cases hid : blob.blobDesc.shapePtr.id = impl.tensorMeta.shapePtr.id
    · by_cases hdt : blob.blobDesc.dataType = impl.tensorMeta.dtype
      · refine ⟨hid, hdt, ?_, ?_⟩
        · simp [EagerMirroredTensorImpl.set_eager_blob_object,
            EagerMirroredTensorImpl.UpdateTensorStorage, hid, hdt]
        · simp [EagerMirroredTensorImpl.set_eager_blob_object,
            EagerMirroredTensorImpl.UpdateTensorStorage, hid, hdt]
      · exact absurd h (by simp [EagerMirroredTensorImpl.set_eager_blob_object, hid, hdt])
    · exact absurd h (by simp [EagerMirroredTensorImpl.set_eager_blob_object, hid])

/-- Witness for C9: binding a blob and a storage over the same buffer (id 7)
succeeds and the bound pair reports that shared buffer. -/
theorem blob_storage_binding_buffer_checks_witness :
    (⟨⟨⟨3, [2]⟩, DataType.kFloat, ⟨"cpu", 0⟩, false⟩, false, true,
        some ⟨⟨⟨3, [2]⟩, DataType.kFloat⟩, 7, false⟩, some ⟨7, none⟩⟩ :
      EagerMirroredTensorImpl).eagerBlobObject =
        some ⟨⟨⟨3, [2]⟩, DataType.kFloat⟩, 7, false⟩ ∧
    (⟨⟨⟨3, [2]⟩, DataType.kFloat, ⟨"cpu", 0⟩, false⟩, false, true,
        some ⟨⟨⟨3, [2]⟩, DataType.kFloat⟩, 7, false⟩, some ⟨7, none⟩⟩ :
      EagerMirroredTensorImpl).tensorStorage = some ⟨7, none⟩ ∧
    (⟨⟨⟨3, [2]⟩, DataType.kFloat⟩, 7, false⟩ : EagerBlobObject).tensorBuffer =
      (⟨7, none⟩ : TensorStorage).buffer :=
  blob_storage_binding_buffer_checks.2.1
    ⟨⟨⟨3, [2]⟩, DataType.kFloat, ⟨"cpu", 0⟩, false⟩, false, true, none, none⟩
    ⟨⟨⟨3, [2]⟩, DataType.kFloat⟩, 7, false⟩ ⟨7, none⟩
    ⟨⟨⟨3, [2]⟩, DataType.kFloat, ⟨"cpu", 0⟩, false⟩, false, true,
      some ⟨⟨⟨3, [2]⟩, DataType.kFloat⟩, 7, false⟩, some ⟨7, none⟩⟩
    (by rfl)

/-- The spin-off bound used for C10: along any event sequence the number of
hook invocations is bounded by one when the hook has not fired yet, and by
zero once it has fired. -/
theorem runStorage_at_most_once (evs : List StorageEvent) :
    ∀ s : StorageState, (runStorage s evs).2 ≤ if s.hookFired then 0 else 1 := by
  induction evs with
  | nil =>
    intro s
    simp only [runStorage]
    split
    · exact Nat.le_refl 0
    · exact Nat.zero_le 1
  | cons e evs ih =>
    intro s
    cases e with
    | acquire =>
      simpa [runStorage, stepStorage] using ih { s with refCount := s.refCount + 1 }
    | release =>
      by_cases h0 : s.refCount = 0
      · simpa [runStorage, stepStorage, h0] using ih s
      · by_cases h1 : s.refCount = 1
        · have h2 : (runStorage (⟨0, true⟩ : StorageState) evs).2 ≤ 0 := by
            simpa using ih ⟨0, true⟩
          have hstep : stepStorage s .release =
              (⟨0, true⟩, if s.hookFired then 0 else 1) := by
            simp [stepStorage, h0, h1]
          cases hf : s.hookFired with
          | true =>
            simp only [runStorage, hstep, hf, if_true]
            simpa using h2
          | false =>
            simp only [runStorage, hstep, hf]
            simp only [Bool.false_eq_true, if_false]
            omega
        · simpa [runStorage, stepStorage, h0, h1] using
            ih { s with refCount := s.refCount - 1 }

/-- C10: the releaser hook installed by UpdateTensorStorage consists of exactly
one effect, enqueueing a ReleaseTensor instruction for the blob through the
instruction builder inside PhysicalRun — it frees no memory synchronously —
and, per the modelled TensorStorage reference-count discipline, the hook fires
at most once per storage along any sequence of acquire and release events. -/
theorem release_hook_enqueues_instruction_and_fires_once :
    (∀ (impl : EagerMirroredTensorImpl) (blob : EagerBlobObject),
      impl.eagerBlobObject = some blob →
      ∃ hook, impl.UpdateTensorStorage =
          some { impl with tensorStorage := some ⟨blob.tensorBuffer, some hook⟩ } ∧
        hook = [ReleaseEffect.enqueueReleaseTensor blob.tensorBuffer
          impl.tensorMeta.device.parallelDescPtr] ∧
        hook.all (fun e => !e.isSyncFree) = true) ∧
    (∀ (initialOwners : Nat) (events : List StorageEvent),
      (runStorage ⟨initialOwners, false⟩ events).2 ≤ 1) := by
  constructor
  · intro impl blob h
    exact ⟨[ReleaseEffect.enqueueReleaseTensor blob.tensorBuffer
        impl.tensorMeta.device.parallelDescPtr],
      by simp [EagerMirroredTensorImpl.UpdateTensorStorage, h], rfl, rfl⟩
  · intro k evs
    simpa using runStorage_at_most_once evs ⟨k, false⟩

/-- Witness for C10: an impl holding a blob over buffer 7 installs the
single-enqueue hook, and a share-then-drop event sequence over a storage with
two owners fires the hook at most once. -/
theorem release_hook_enqueues_instruction_and_fires_once_witness :
    (∃ hook,
      (⟨⟨⟨3, [2]⟩, DataType.kFloat, ⟨"cpu", 0⟩, false⟩, false, true,
          some ⟨⟨⟨3, [2]⟩, DataType.kFloat⟩, 7, false⟩, none⟩ :
        EagerMirroredTensorImpl).UpdateTensorStorage =
          some ⟨⟨⟨3, [2]⟩, DataType.kFloat, ⟨"cpu", 0⟩, false⟩, false, true,
            some ⟨⟨⟨3, [2]⟩, DataType.kFloat⟩, 7, false⟩,
            some ⟨7, some hook⟩⟩ ∧
        hook = [ReleaseEffect.enqueueReleaseTensor 7 ⟨"cpu", [(0, 0)]⟩] ∧
        hook.all (fun e => !e.isSyncFree) = true) ∧
    (runStorage ⟨2, false⟩
      [StorageEvent.release, StorageEvent.acquire, StorageEvent.release,
        StorageEvent.release]).2 ≤ 1 :=
  ⟨release_hook_enqueues_instruction_and_fires_once.1
      ⟨⟨⟨3, [2]⟩, DataType.kFloat, ⟨"cpu", 0⟩, false⟩, false, true,
        some ⟨⟨⟨3, [2]⟩, DataType.kFloat⟩, 7, false⟩, none⟩
      ⟨⟨⟨3, [2]⟩, DataType.kFloat⟩, 7, false⟩ rfl,
   release_hook_enqueues_instruction_and_fires_once.2 2
      [StorageEvent.release, StorageEvent.acquire, StorageEvent.release,
        StorageEvent.release]⟩

end OneFlow
